import Mathlib

/-!
Shallow embedding of the analytical core of `streamlit_app_python_hse`
(`src/analysis.py` and `src/weather_monitor.py`).

Temperatures are modelled as rationals (the CSV data is decimal), timestamps as
integer day numbers (the code only ever uses whole-day differences), and every
value that can be NaN in pandas (a statistic of an empty or too-small group, a
rolling value outside a full window) is modelled as an `Option`:
`none` stands for NaN.  Float comparisons against NaN are `False` in Python, so
the boolean tests below return `false` on `none`.

Standard deviations are square roots of rational variances and therefore live
in `ℝ`; everything that does not involve a square root stays in `ℚ` so that it
can be evaluated by `decide`.
-/

/-- Sum of a list of rationals (`Series.sum`). -/
def listSum (xs : List ℚ) : ℚ := xs.foldr (fun a b => a + b) 0

/-- Pandas `Series.mean`: NaN (`none`) on an empty series, otherwise the arithmetic mean. -/
def seriesMean (xs : List ℚ) : Option ℚ :=
  if xs.isEmpty then none else some (listSum xs / xs.length)

/-- Sample variance with the `n - 1` (ddof 1) denominator, as a total function on
lists of length at least 2 (its only use). -/
def sampleVarCore (xs : List ℚ) : ℚ :=
  listSum (xs.map (fun x => (x - listSum xs / xs.length) ^ 2)) / ((xs.length : ℚ) - 1)

/-- Sample variance (`ddof = 1`): NaN (`none`) on fewer than two points, exactly as
`Series.std` is NaN there. -/
def sampleVar (xs : List ℚ) : Option ℚ :=
  if 2 ≤ xs.length then some (sampleVarCore xs) else none

/-- Pandas `Series.std` (sample standard deviation): square root of `sampleVar`. -/
noncomputable def sampleStd (xs : List ℚ) : Option ℝ :=
  (sampleVar xs).map (fun (v : ℚ) => Real.sqrt (v : ℝ))

/-- The label offset pandas uses for `rolling(..., center=True)` on a fixed window:
`(window - 1) / 2` (integer division). -/
def centerOffset (w : Nat) : Nat := (w - 1) / 2

/-- Pandas `Series.rolling(window=w, center=True).apply(f)` with the default
`min_periods = w`: entry `i` is `f` of the slice of indices
`[i + 1 + centerOffset w - w, i + centerOffset w]` when that slice lies fully inside
the series, and NaN (`none`) otherwise.  This is pandas' `FixedWindowIndexer`
bound computation for centered windows. -/
def rollingApply (f : List ℚ → α) (w : Nat) (xs : List ℚ) : List (Option α) :=
  (List.range xs.length).map (fun i =>
    if w ≤ i + 1 + centerOffset w ∧ i + centerOffset w < xs.length then
      some (f ((xs.drop (i + 1 + centerOffset w - w)).take w))
    else none)

/-- Pandas `Series.rolling(window=w, center=True).mean()`. -/
def rollingMean (w : Nat) (xs : List ℚ) : List (Option ℚ) :=
  (rollingApply seriesMean w xs).map Option.join

/-- Pandas `Series.rolling(window=w, center=True).std()`. -/
noncomputable def rollingStd (w : Nat) (xs : List ℚ) : List (Option ℝ) :=
  (rollingApply sampleStd w xs).map Option.join

/-- The constant `WINDOW_SIZE = 30` from `analysis.py`. -/
def WINDOW_SIZE : Nat := 30

/-- One row of the temperature DataFrame (one Reading): columns
`timestamp`, `city`, `temperature`, `season`. -/
structure Reading where
  city : String
  timestamp : Int
  temperature : ℚ
  season : String
deriving DecidableEq, Repr

/-- A row after `calc_moving_avg` added the `moving_mean` / `moving_std` columns
(`none` is NaN). -/
structure StatRow where
  base : Reading
  moving_mean : Option ℚ
  moving_std : Option ℝ

/-- A row after `calc_anomalies` added `lower_bound`, `upper_bound`, `is_anomaly`. -/
structure AnomRow where
  stat : StatRow
  lower_bound : Option ℝ
  upper_bound : Option ℝ
  is_anomaly : Bool

/-- Pandas `df['city'].unique()`: distinct city values in order of first appearance. -/
def uniqueAux : List String → List String → List String
  | [], _ => []
  | x :: xs, seen => if x ∈ seen then uniqueAux xs seen else x :: uniqueAux xs (x :: seen)

/-- Pandas `df['city'].unique()` for a Reading DataFrame. -/
def uniqueCities (df : List Reading) : List String := uniqueAux (df.map Reading.city) []

/-- The column `df[df['city'] == c]['temperature']` on the raw Reading DataFrame. -/
def cityTemps (df : List Reading) (c : String) : List ℚ :=
  (df.filter (fun r => decide (r.city = c))).map Reading.temperature

/-- The column `df.loc[df['city'] == c, 'temperature']` on the DataFrame that already carries
the derived columns (the sequential branch reads temperatures from the frame it
is updating). -/
def tempsOf (acc : List StatRow) (c : String) : List ℚ :=
  (acc.filter (fun r => decide (r.base.city = c))).map (fun r => r.base.temperature)

/-- Masked assignment `df.loc[df['city'] == c, col] = vals` for both derived columns at once: rows
whose city matches `c` receive the next value of `ms` / `ss` positionally; all
other rows are untouched.  This is pandas' masked positional assignment. -/
def assignCity : List StatRow → String → List (Option ℚ) → List (Option ℝ) → List StatRow
  | [], _, _, _ => []
  | r :: rs, c, ms, ss =>
    if r.base.city = c then
      { base := r.base, moving_mean := ms.headD none, moving_std := ss.headD none } ::
        assignCity rs c ms.tail ss.tail
    else
      r :: assignCity rs c ms ss

/-- The worker `calc_city_moving` from `analysis.py`: the parallel worker; receives
`(df[df['city'] == city], city)` and returns the city key together with the
rolling mean and rolling std arrays of that city's temperature series. -/
noncomputable def calc_city_moving (args : List Reading × String) :
    String × List (Option ℚ) × List (Option ℝ) :=
  (args.2, rollingMean WINDOW_SIZE (args.1.map Reading.temperature),
    rollingStd WINDOW_SIZE (args.1.map Reading.temperature))

/-- The function `calc_moving_avg` from `analysis.py`.  Sequential branch: iterate the cities in
first-appearance order and write each city's rolling statistics back through the
city mask.  Parallel branch: compute `calc_city_moving` for every city's
sub-frame (of the original frame) and merge the results back by city key, in the
same order the pool returns them (`Pool.map` preserves input order). -/
noncomputable def calc_moving_avg (df : List Reading) (parallel : Bool) : List StatRow :=
  let init : List StatRow := df.map (fun r => { base := r, moving_mean := none, moving_std := none })
  if parallel = false then
    (uniqueCities df).foldl
      (fun acc c =>
        assignCity acc c (rollingMean WINDOW_SIZE (tempsOf acc c))
          (rollingStd WINDOW_SIZE (tempsOf acc c)))
      init
  else
    ((uniqueCities df).map
        (fun c => calc_city_moving (df.filter (fun r => decide (r.city = c)), c))).foldl
      (fun acc p => assignCity acc p.1 p.2.1 p.2.2) init

/-- Comparison `t < o` for a float `o` that may be NaN (`none`): NaN comparisons are `False`. -/
noncomputable def ltOpt (t : ℚ) (o : Option ℝ) : Bool :=
  match o with
  | none => false
  | some l => decide ((t : ℝ) < l)

/-- Comparison `t > o` for a float `o` that may be NaN (`none`): NaN comparisons are `False`. -/
noncomputable def gtOpt (t : ℚ) (o : Option ℝ) : Bool :=
  match o with
  | none => false
  | some u => decide ((t : ℝ) > u)

/-- The function `calc_anomalies` from `analysis.py`: adds
`lower_bound = moving_mean - 2 moving_std`, `upper_bound = moving_mean + 2 moving_std`
(NaN when either input is NaN) and
`is_anomaly = (temperature < lower_bound) | (temperature > upper_bound)`. -/
noncomputable def calc_anomalies (df : List StatRow) : List AnomRow :=
  df.map (fun r =>
    let lb : Option ℝ :=
      match r.moving_mean, r.moving_std with
      | some m, some s => some ((m : ℝ) - 2 * s)
      | _, _ => none
    let ub : Option ℝ :=
      match r.moving_mean, r.moving_std with
      | some m, some s => some ((m : ℝ) + 2 * s)
      | _, _ => none
    { stat := r, lower_bound := lb, upper_bound := ub,
      is_anomaly := ltOpt r.base.temperature lb || gtOpt r.base.temperature ub })

/-- Modelled from scipy's documented behaviour of `scipy.stats.linregress` on the
pieces `calc_trend` uses: the least-squares `slope = Σ(x - x̄)(y - ȳ) / Σ(x - x̄)²`
and `intercept = ȳ - slope x̄`; when all x values are identical (zero variance,
which includes fewer than two points) it raises
`ValueError("Cannot calculate a linear regression if all x values are identical")`,
modelled as `Except.error`.  The `r_value` and `p_value` outputs are not modelled:
no claim mentions them. -/
def linregress (xs ys : List ℚ) : Except String (ℚ × ℚ) :=
  let n : ℚ := xs.length
  let xm := listSum xs / n
  let ym := listSum ys / n
  let ssxm := listSum (xs.map (fun x => (x - xm) ^ 2))
  if ssxm = 0 then
    Except.error "Cannot calculate a linear regression if all x values are identical"
  else
    let slope := listSum (List.zipWith (fun x y => (x - xm) * (y - ym)) xs ys) / ssxm
    Except.ok (slope, ym - slope * xm)

/-- The day offsets `(city_df['timestamp'] - city_df['timestamp'].min()).dt.days` for one city's
sub-frame: day offsets from the city's earliest timestamp. -/
def dayOffsets (g : List Reading) : List ℚ :=
  let tmin := ((g.map Reading.timestamp).min?).getD 0
  g.map (fun r => ((r.timestamp - tmin : Int) : ℚ))

/-- The function `calc_trend` from `analysis.py`: per city (in first-appearance order) regress
temperature on day offset and record the slope in the trends dict.  An exception
raised by `stats.linregress` inside the loop propagates and aborts the whole
call, which `Except` models; the per-row fitted `trend` column is not modelled
(no claim mentions it). -/
def calc_trend (df : List Reading) : Except String (List (String × ℚ)) :=
  (uniqueCities df).foldlM
    (fun acc city => do
      let g := df.filter (fun r => decide (r.city = city))
      let p ← linregress (dayOffsets g) (g.map Reading.temperature)
      pure (acc ++ [(city, p.1)]))
    []

/-- The successful payload of the OpenWeatherMap current-weather call, restricted
to the fields `get_current_temp` reads. -/
structure WeatherResp where
  temp : ℚ
  feels_like : ℚ
  description : String
deriving DecidableEq, Repr

/-- The network environment: for each city, either a successful response or a
failure (network error, bad credential, malformed payload — anything the
`try/except` in the fetchers catches). -/
def Env : Type := String → Except String WeatherResp

/-- The record `get_current_temp` returns on success. -/
structure LiveReading where
  city : String
  temperature : ℚ
  feels_like : ℚ
  description : String
deriving DecidableEq, Repr

/-- The function `get_current_temp` from `weather_monitor.py`: on a successful request build the
reading record; on any exception log and return `None`. -/
def get_current_temp (env : Env) (city : String) : Option LiveReading :=
  match env city with
  | Except.ok d =>
      some { city := city, temperature := d.temp, feels_like := d.feels_like,
             description := d.description }
  | Except.error _ => none

/-- The coroutine `get_current_temp_async` from `weather_monitor.py`: same body as the sync
fetcher (each coroutine catches its own exception and returns `None`), modelled
as the same pure function of the environment. -/
def get_current_temp_async (env : Env) (city : String) : Option LiveReading :=
  match env city with
  | Except.ok d =>
      some { city := city, temperature := d.temp, feels_like := d.feels_like,
             description := d.description }
  | Except.error _ => none

/-- The function `fetch_all_temps_async`: `asyncio.gather` over one task per city; `gather`
returns results in task order, so the result is the per-city results in the
order of `cities`. -/
def fetch_all_temps_async (cities : List String) (env : Env) : List (Option LiveReading) :=
  cities.map (get_current_temp_async env)

/-- The function `fetch_all_temps_sync`: one request after another, results in city order. -/
def fetch_all_temps_sync (cities : List String) (env : Env) : List (Option LiveReading) :=
  cities.map (get_current_temp env)

/-- The constant `CITIES_TO_CHECK` from `weather_monitor.py`. -/
def CITIES_TO_CHECK : List String :=
  ["Berlin", "Cairo", "Dubai", "Beijing", "Moscow", "Rio de Janeiro"]

/-- The dict `get_season_stats` returns; every field is a float that is NaN
(`none`) when the (city, season) group is empty (mean) or has fewer than two
readings (std, and hence both bounds). -/
structure SeasonStats where
  mean : Option ℚ
  std : Option ℝ
  lower : Option ℝ
  upper : Option ℝ

/-- The function `get_season_stats` from `weather_monitor.py`: filter the frame to one
(city, season) group, take mean and sample std of its temperatures, and derive
`lower = mean - 2 std`, `upper = mean + 2 std` (NaN-propagating). -/
noncomputable def get_season_stats (df : List Reading) (city season : String) : SeasonStats :=
  let temps := (df.filter (fun r => decide (r.city = city ∧ r.season = season))).map
    Reading.temperature
  let mean_temp := seriesMean temps
  let std_temp := sampleStd temps
  { mean := mean_temp, std := std_temp,
    lower :=
      match mean_temp, std_temp with
      | some m, some s => some ((m : ℝ) - 2 * s)
      | _, _ => none,
    upper :=
      match mean_temp, std_temp with
      | some m, some s => some ((m : ℝ) + 2 * s)
      | _, _ => none }

/-- The dict `check_anomaly` returns.  `deviation = abs(current_temp - mean)` is
NaN (`none`) when the baseline mean is NaN. -/
structure AnomalyVerdict where
  is_anomaly : Bool
  status : String
  deviation : Option ℚ

/-- The function `check_anomaly` from `weather_monitor.py`: flag iff the temperature is
strictly below `lower` or strictly above `upper` (NaN bounds compare `False`),
with the matching status string and `deviation = |current_temp - mean|`. -/
noncomputable def check_anomaly (current_temp : ℚ) (stats : SeasonStats) : AnomalyVerdict :=
  { is_anomaly := ltOpt current_temp stats.lower || gtOpt current_temp stats.upper,
    status :=
      if ltOpt current_temp stats.lower then "colder than normal"
      else if gtOpt current_temp stats.upper then "warmer than normal"
      else "within normal range",
    deviation := stats.mean.map (fun m => |current_temp - m|) }

/-- The function `get_current_season` from `weather_monitor.py`, as a function of the current
month number. -/
def get_current_season (month : Nat) : String :=
  if month = 12 ∨ month = 1 ∨ month = 2 then "winter"
  else if month = 3 ∨ month = 4 ∨ month = 5 then "spring"
  else if month = 6 ∨ month = 7 ∨ month = 8 then "summer"
  else "autumn"

/-- The rolling mean exactly as the spec words it, for comparison with the code's
`rollingMean`: at position `i` the mean of the centered window
`[i - ⌊W/2⌋, i + ⌊W/2⌋]` inclusive, defined exactly when that window is fully
contained in the series (absent at the first and last `⌊W/2⌋` positions). -/
def specMovingMean (w : Nat) (xs : List ℚ) : List (Option ℚ) :=
  (List.range xs.length).map (fun i =>
    if w / 2 ≤ i ∧ i + w / 2 < xs.length then
      some (listSum ((xs.drop (i - w / 2)).take (2 * (w / 2) + 1)) / ((2 * (w / 2) + 1 : Nat) : ℚ))
    else none)

/-! ### Helper lemmas -/

/-- Masked assignment never touches the original columns: the `base` projection of
the frame is unchanged. -/
lemma assignCity_map_base (acc : List StatRow) (c : String) :
    ∀ ms ss, (assignCity acc c ms ss).map StatRow.base = acc.map StatRow.base := by
  induction acc with
  | nil => intro ms ss; rfl
  | cons r rs ih =>
    intro ms ss
    simp only [assignCity]
    by_cases h : r.base.city = c <;> simp [h, ih]

/-- The temperature column of a city mask depends only on the original columns. -/
lemma tempsOf_eq_cityTemps (acc : List StatRow) (c : String) :
    tempsOf acc c = cityTemps (acc.map StatRow.base) c := by
  induction acc with
  | nil => rfl
  | cons r rs ih =>
    simp only [tempsOf, cityTemps, List.map_cons, List.filter_cons] at *
    by_cases h : r.base.city = c <;> simp [h, ih]

/-- Along the sequential fold, the temperatures each step reads from the frame it
is updating agree with the temperatures of the original frame. -/
lemma seq_fold_eq (df0 : List Reading) (cs : List String) :
    ∀ acc : List StatRow, acc.map StatRow.base = df0 →
      cs.foldl (fun a c => assignCity a c (rollingMean WINDOW_SIZE (tempsOf a c))
        (rollingStd WINDOW_SIZE (tempsOf a c))) acc
      = cs.foldl (fun a c => assignCity a c (rollingMean WINDOW_SIZE (cityTemps df0 c))
        (rollingStd WINDOW_SIZE (cityTemps df0 c))) acc := by
  induction cs with
  | nil => intro acc h; rfl
  | cons c cs ih =>
    intro acc h
    have ht : tempsOf acc c = cityTemps df0 c := by rw [tempsOf_eq_cityTemps, h]
    simp only [List.foldl_cons, ht]
    exact ih _ (by rw [assignCity_map_base, h])

/-- Any fold of masked assignments leaves the original columns of the frame
unchanged. -/
lemma foldl_assignCity_base {α : Type} (cs : List α) (cf : α → String)
    (mf : List StatRow → α → List (Option ℚ)) (sf : List StatRow → α → List (Option ℝ)) :
    ∀ acc : List StatRow,
      (cs.foldl (fun a x => assignCity a (cf x) (mf a x) (sf a x)) acc).map StatRow.base
        = acc.map StatRow.base := by
  induction cs with
  | nil => intro acc; rfl
  | cons x xs ih =>
    intro acc
    simp only [List.foldl_cons]
    rw [ih, assignCity_map_base]

/-- The freshly initialised frame has the original rows as its `base` column. -/
lemma init_map_base (df : List Reading) :
    (df.map (fun r => ({ base := r, moving_mean := none, moving_std := none } : StatRow))).map
      StatRow.base = df := by
  rw [List.map_map]
  exact List.map_id'' (fun x => rfl) df

/-! ### C1 and C8 -/

/-- C1: for every input DataFrame of city-grouped temperature series, the
sequential strategy (`calc_moving_avg` with `parallel=False`) and the parallel
strategy (`parallel=True`, dispatching each city's series to a worker via
`calc_city_moving` and merging results back by city key) produce identical
`moving_mean` and `moving_std` values for every city and every position. -/
theorem calc_moving_avg_parallel_eq_sequential (df : List Reading) :
    calc_moving_avg df true = calc_moving_avg df false := by
  simp only [calc_moving_avg, Bool.true_eq_false, if_false, eq_self_iff_true, if_true]
  rw [List.foldl_map]
  exact (seq_fold_eq df (uniqueCities df) _ (init_map_base df)).symm

/-- C8: `calc_moving_avg`, in both sequential and parallel modes, only adds the
derived columns: the original columns and the relative order of rows are
unchanged in the result. -/
theorem calc_moving_avg_preserves_rows (df : List Reading) (parallel : Bool) :
    (calc_moving_avg df parallel).map StatRow.base = df := by
  cases parallel with
  | false =>
    simp only [calc_moving_avg, if_pos rfl]
    exact (foldl_assignCity_base (uniqueCities df) (fun c => c)
      (fun a c => rollingMean WINDOW_SIZE (tempsOf a c))
      (fun a c => rollingStd WINDOW_SIZE (tempsOf a c)) _).trans (init_map_base df)
  | true =>
    simp only [calc_moving_avg, Bool.true_eq_false, if_false]
    exact ((@foldl_assignCity_base (String × List (Option ℚ) × List (Option ℝ)) _ Prod.fst
      (fun _ p => p.2.1) (fun _ p => p.2.2)) _).trans (init_map_base df)

/-! ### C2: the centered-window characterization -/

/-- Entry-wise description of pandas' centered rolling apply. -/
lemma rollingApply_getElem? (f : List ℚ → α) (w : Nat) (xs : List ℚ) (i : Nat)
    (h : i < xs.length) :
    (rollingApply f w xs)[i]? =
      some (if w ≤ i + 1 + centerOffset w ∧ i + centerOffset w < xs.length then
        some (f ((xs.drop (i + 1 + centerOffset w - w)).take w))
      else none) := by
  rw [rollingApply, List.getElem?_map, List.getElem?_range h]
  rfl

/-- A full window slice of the default 30-day window has exactly 30 elements. -/
lemma window_slice_length (xs : List ℚ) (i : Nat) (h15 : 15 ≤ i) (hn : i + 15 ≤ xs.length) :
    ((xs.drop (i - 15)).take 30).length = 30 := by
  simp only [List.length_take, List.length_drop]
  omega

/-- C2 (amended): for every city series, `calc_city_moving` (the per-city rolling
computation both execution strategies apply, window `W = 30`) produces at
position `i` the mean and sample standard deviation of the temperatures in the
centered window `[i - 15, i + 14]` — that is, `[i - ⌊W/2⌋, i + ⌊W/2⌋ - 1]` for
the even default window — and only when that window is fully contained in the
series; the value is absent (not zero) at exactly the first `15 = ⌊W/2⌋` and the
last `14 = ⌊W/2⌋ - 1` positions of each city's series. -/
theorem calc_city_moving_centered_window (rows : List Reading) (city : String) (i : Nat)
    (h : i < rows.length) :
    (calc_city_moving (rows, city)).2.1[i]? =
      some (if 15 ≤ i ∧ i + 15 ≤ rows.length then
        some (listSum (((rows.map Reading.temperature).drop (i - 15)).take 30) / 30)
      else none) ∧
    (calc_city_moving (rows, city)).2.2[i]? =
      some (if 15 ≤ i ∧ i + 15 ≤ rows.length then
        some (Real.sqrt
          ((sampleVarCore (((rows.map Reading.temperature).drop (i - 15)).take 30) : ℚ) : ℝ))
      else none) := by
  have hW : WINDOW_SIZE = 30 := rfl
  have hx : i < (rows.map Reading.temperature).length := by
    rw [List.length_map]; exact h
  have hco : centerOffset 30 = 14 := rfl
  have hidx : i + 1 + 14 - 30 = i - 15 := by omega
  have hcond : (30 ≤ i + 1 + 14 ∧ i + 14 < (rows.map Reading.temperature).length) ↔
      (15 ≤ i ∧ i + 15 ≤ rows.length) := by
    rw [List.length_map]
    omega
  constructor
  · show (rollingMean WINDOW_SIZE (rows.map Reading.temperature))[i]? = _
    rw [hW, rollingMean, List.getElem?_map,
      rollingApply_getElem? seriesMean 30 (rows.map Reading.temperature) i hx, hco, hidx]
    by_cases hc : 15 ≤ i ∧ i + 15 ≤ rows.length
    · rw [if_pos (hcond.mpr hc), if_pos hc]
      have hlen := window_slice_length (rows.map Reading.temperature) i hc.1
        (by rw [List.length_map]; exact hc.2)
      have hne : ¬ ((((rows.map Reading.temperature).drop (i - 15)).take 30).isEmpty = true) := by
        rw [List.isEmpty_iff_length_eq_zero, hlen]
        omega
      simp only [Option.map_some', Option.join, seriesMean]
      rw [if_neg hne, hlen]
      norm_num
    · rw [if_neg (fun hh => hc (hcond.mp hh)), if_neg hc]
      rfl
  · show (rollingStd WINDOW_SIZE (rows.map Reading.temperature))[i]? = _
    rw [hW, rollingStd, List.getElem?_map,
      rollingApply_getElem? sampleStd 30 (rows.map Reading.temperature) i hx, hco, hidx]
    by_cases hc : 15 ≤ i ∧ i + 15 ≤ rows.length
    · rw [if_pos (hcond.mpr hc), if_pos hc]
      have hlen := window_slice_length (rows.map Reading.temperature) i hc.1
        (by rw [List.length_map]; exact hc.2)
      have h2 : 2 ≤ (((rows.map Reading.temperature).drop (i - 15)).take 30).length := by
        rw [hlen]; omega
      have hv : sampleVar (((rows.map Reading.temperature).drop (i - 15)).take 30) =
          some (sampleVarCore (((rows.map Reading.temperature).drop (i - 15)).take 30)) := by
        simp only [sampleVar]
        rw [if_pos h2]
      simp only [Option.map_some', Option.join, sampleStd, hv]
      rfl
    · rw [if_neg (fun hh => hc (hcond.mp hh)), if_neg hc]
      rfl

/-- A 30-reading single-city series on which the claimed window placement and the
code's window placement disagree. -/
def rowsBerlin30 : List Reading :=
  List.replicate 30 { city := "Berlin", timestamp := 0, temperature := 0, season := "winter" }

/-- C2 (counterexample): on a 30-reading city series the rolling mean the code
computes is not the one the claim describes: the claim's centered window
`[i - 15, i + 15]` is never contained in a 30-element series, so the claimed
output is absent everywhere, while the code produces a defined value at
position 15. -/
theorem calc_city_moving_ne_spec_window :
    (calc_city_moving (rowsBerlin30, "Berlin")).2.1 ≠
      specMovingMean WINDOW_SIZE (rowsBerlin30.map Reading.temperature) := by
  decide

/-- Witness for the amended C2: the concrete 30-reading series at position 15, the
single position whose centered window fits. -/
theorem calc_city_moving_centered_window_witness :
    15 < rowsBerlin30.length ∧
    ((calc_city_moving (rowsBerlin30, "Berlin")).2.1[15]? =
      some (if 15 ≤ 15 ∧ 15 + 15 ≤ rowsBerlin30.length then
        some (listSum (((rowsBerlin30.map Reading.temperature).drop (15 - 15)).take 30) / 30)
      else none) ∧
    (calc_city_moving (rowsBerlin30, "Berlin")).2.2[15]? =
      some (if 15 ≤ 15 ∧ 15 + 15 ≤ rowsBerlin30.length then
        some (Real.sqrt
          ((sampleVarCore (((rowsBerlin30.map Reading.temperature).drop (15 - 15)).take 30) : ℚ) : ℝ))
      else none)) :=
  ⟨by decide, calc_city_moving_centered_window rowsBerlin30 "Berlin" 15 (by decide)⟩

/-! ### C3: the historical anomaly flag -/

/-- C3: for every Reading processed by `calc_anomalies`, the flag is `false` when
the bounds are undefined (absent `moving_mean` / `moving_std`); when defined, the
bounds are `moving_mean ∓ 2 moving_std`, the reading is flagged anomalous iff its
temperature is strictly below the lower bound or strictly above the upper bound,
and in particular the flag is `false` whenever the temperature lies within the
bounds inclusive. -/
theorem calc_anomalies_flag_spec (df : List StatRow) (r : StatRow) (o : AnomRow) (i : Nat)
    (hr : df[i]? = some r) (ho : (calc_anomalies df)[i]? = some o) :
    (r.moving_mean = none ∨ r.moving_std = none → o.is_anomaly = false) ∧
    (∀ m s, r.moving_mean = some m → r.moving_std = some s →
      o.lower_bound = some ((m : ℝ) - 2 * s) ∧
      o.upper_bound = some ((m : ℝ) + 2 * s) ∧
      (o.is_anomaly = true ↔
        ((r.base.temperature : ℝ) < (m : ℝ) - 2 * s ∨
          (m : ℝ) + 2 * s < (r.base.temperature : ℝ))) ∧
      ((m : ℝ) - 2 * s ≤ (r.base.temperature : ℝ) ∧
          (r.base.temperature : ℝ) ≤ (m : ℝ) + 2 * s →
        o.is_anomaly = false)) := by
  rw [calc_anomalies, List.getElem?_map, hr, Option.map_some'] at ho
  have ho' := (Option.some_inj.mp ho).symm
  subst ho'
  constructor
  · intro hnone
    rcases hnone with hm | hs
    · rcases hsd : r.moving_std with _ | s <;> simp [hm, hsd, ltOpt, gtOpt]
    · rcases hmd : r.moving_mean with _ | m <;> simp [hmd, hs, ltOpt, gtOpt]
  · intro m s hm hs
    refine ⟨by simp [hm, hs], by simp [hm, hs], ?_, ?_⟩
    · simp [hm, hs, ltOpt, gtOpt]
    · intro hin
      have h1 : ¬ ((r.base.temperature : ℝ) < (m : ℝ) - 2 * s) := not_lt.mpr hin.1
      have h2 : ¬ ((m : ℝ) + 2 * s < (r.base.temperature : ℝ)) := not_lt.mpr hin.2
      simp [hm, hs, ltOpt, gtOpt, h1, h2]

/-- The single row of the concrete frame used to witness C3. -/
def rowC3 : StatRow :=
  { base := { city := "Berlin", timestamp := 0, temperature := 10, season := "winter" },
    moving_mean := some 10, moving_std := some 2 }

/-- A one-row frame whose reading sits exactly at its own rolling mean. -/
def dfC3 : List StatRow := [rowC3]

/-- The row `calc_anomalies` produces for `dfC3`. -/
noncomputable def oC3 : AnomRow :=
  { stat := rowC3,
    lower_bound := some ((10 : ℝ) - 2 * 2), upper_bound := some ((10 : ℝ) + 2 * 2),
    is_anomaly := ltOpt 10 (some ((10 : ℝ) - 2 * 2)) || gtOpt 10 (some ((10 : ℝ) + 2 * 2)) }

/-- Witness for C3 at the concrete one-row frame. -/
theorem calc_anomalies_flag_spec_witness :
    dfC3[0]? = some rowC3 ∧
    (calc_anomalies dfC3)[0]? = some oC3 ∧
    (∀ m s, rowC3.moving_mean = some m → rowC3.moving_std = some s →
      oC3.lower_bound = some ((m : ℝ) - 2 * s) ∧
      oC3.upper_bound = some ((m : ℝ) + 2 * s) ∧
      (oC3.is_anomaly = true ↔
        ((rowC3.base.temperature : ℝ) < (m : ℝ) - 2 * s ∨
          (m : ℝ) + 2 * s < (rowC3.base.temperature : ℝ))) ∧
      ((m : ℝ) - 2 * s ≤ (rowC3.base.temperature : ℝ) ∧
          (rowC3.base.temperature : ℝ) ≤ (m : ℝ) + 2 * s →
        oC3.is_anomaly = false)) := by
  have hr : dfC3[0]? = some rowC3 := rfl
  have ho : (calc_anomalies dfC3)[0]? = some oC3 := rfl
  exact ⟨hr, ho, (calc_anomalies_flag_spec dfC3 rowC3 oC3 0 hr ho).2⟩

/-! ### C4: single historical reading in a season -/

/-- A frame with exactly one historical reading for (Rio de Janeiro, summer). -/
def dfRioSingle : List Reading :=
  [{ city := "Rio de Janeiro", timestamp := 0, temperature := 23, season := "summer" }]

/-- C4 (code behaviour at the failing input): with a single historical reading in
the season, `get_season_stats` indeed leaves the baseline undefined (sample std
of one point is NaN, and both bounds with it), but `check_anomaly` then reports
`is_anomaly = false` with status `within normal range` — a false negative — rather
than an explicit baseline-unavailable condition: NaN bounds make both strict
comparisons `False`. -/
theorem single_reading_yields_false_negative :
    (get_season_stats dfRioSingle "Rio de Janeiro" "summer").mean = some 23 ∧
    (get_season_stats dfRioSingle "Rio de Janeiro" "summer").std = none ∧
    (get_season_stats dfRioSingle "Rio de Janeiro" "summer").lower = none ∧
    (get_season_stats dfRioSingle "Rio de Janeiro" "summer").upper = none ∧
    check_anomaly 36 (get_season_stats dfRioSingle "Rio de Janeiro" "summer") =
      { is_anomaly := false, status := "within normal range", deviation := some 13 } := by
  have htemps : (dfRioSingle.filter
      (fun r => decide (r.city = "Rio de Janeiro" ∧ r.season = "summer"))).map
      Reading.temperature = [23] := by decide
  have hmean : seriesMean [23] = some 23 := by
    norm_num [seriesMean, listSum]
  have hstd : sampleStd [23] = none := by
    simp [sampleStd, sampleVar]
  refine ⟨?_, ?_, ?_, ?_, ?_⟩
  · simp only [get_season_stats, htemps, hmean]
  · simp only [get_season_stats, htemps, hstd]
  · simp only [get_season_stats, htemps, hmean, hstd]
  · simp only [get_season_stats, htemps, hmean, hstd]
  · simp only [check_anomaly, get_season_stats, htemps, hmean, hstd, ltOpt, gtOpt]
    norm_num

/-! ### C5: degenerate regression input -/

/-- A batch with a degenerate city "A" (both readings on the same day, so the
day-offset regressor is constant) and a healthy city "B". -/
def dfTrendDegenerate : List Reading :=
  [{ city := "A", timestamp := 5, temperature := 10, season := "winter" },
   { city := "A", timestamp := 5, temperature := 12, season := "winter" },
   { city := "B", timestamp := 0, temperature := 1, season := "winter" },
   { city := "B", timestamp := 1, temperature := 2, season := "winter" }]

/-- C5 (code behaviour at the failing input): a city whose readings all share one
`day_offset` makes `stats.linregress` raise, and the exception aborts the whole
`calc_trend` batch — no trends dict is produced, not even for the healthy city
"B" — instead of reporting an undefined slope for that city alone. -/
theorem calc_trend_constant_days_aborts_batch :
    calc_trend dfTrendDegenerate =
      Except.error "Cannot calculate a linear regression if all x values are identical" := by
  have hu : uniqueCities dfTrendDegenerate = ["A", "B"] := by decide
  have hfil : dfTrendDegenerate.filter (fun r => decide (r.city = "A")) =
      [{ city := "A", timestamp := 5, temperature := 10, season := "winter" },
       { city := "A", timestamp := 5, temperature := 12, season := "winter" }] := by decide
  have hdays : dayOffsets (dfTrendDegenerate.filter (fun r => decide (r.city = "A"))) =
      [0, 0] := by
    rw [hfil]
    norm_num [dayOffsets, List.min?]
  have hlin : linregress (dayOffsets (dfTrendDegenerate.filter (fun r => decide (r.city = "A"))))
      ((dfTrendDegenerate.filter (fun r => decide (r.city = "A"))).map Reading.temperature) =
      Except.error "Cannot calculate a linear regression if all x values are identical" := by
    rw [hdays]
    norm_num [linregress, listSum]
  rw [calc_trend, hu]
  simp only [List.foldlM_cons, hlin]
  rfl

/-! ### C6: end-to-end scenario B -/

/-- Three summer readings for Rio de Janeiro with mean 23 and sample standard
deviation exactly 3.5 (deviations 3.5, 0, -3.5; sample variance 12.25). -/
def dfRio3 : List Reading :=
  [{ city := "Rio de Janeiro", timestamp := 0, temperature := 26.5, season := "summer" },
   { city := "Rio de Janeiro", timestamp := 1, temperature := 23, season := "summer" },
   { city := "Rio de Janeiro", timestamp := 2, temperature := 19.5, season := "summer" }]

/-- The summer temperatures of `dfRio3` as `get_season_stats` extracts them. -/
lemma dfRio3_temps : (dfRio3.filter
    (fun r => decide (r.city = "Rio de Janeiro" ∧ r.season = "summer"))).map
    Reading.temperature = [26.5, 23, 19.5] := by
  norm_num [dfRio3, List.filter]

/-- The seasonal mean of `dfRio3` is 23. -/
lemma dfRio3_mean : (get_season_stats dfRio3 "Rio de Janeiro" "summer").mean = some 23 := by
  simp only [get_season_stats, dfRio3_temps]
  norm_num [seriesMean, listSum]

/-- The seasonal sample standard deviation of `dfRio3` is 3.5. -/
lemma dfRio3_std : (get_season_stats dfRio3 "Rio de Janeiro" "summer").std = some 3.5 := by
  have hcore : sampleVarCore [26.5, 23, 19.5] = 12.25 := by
    norm_num [sampleVarCore, listSum]
  have hvar : sampleVar [26.5, 23, 19.5] = some 12.25 := by
    simp only [sampleVar]
    rw [if_pos (by norm_num), hcore]
  have hstd : sampleStd [26.5, 23, 19.5] = some 3.5 := by
    simp only [sampleStd]
    rw [hvar, Option.map_some']
    congr 1
    rw [show ((12.25 : ℚ) : ℝ) = (3.5 : ℝ) ^ 2 by norm_num]
    exact Real.sqrt_sq (by norm_num)
  simp only [get_season_stats, dfRio3_temps, hstd]

/-- C6: a live reading of 36.0 °C checked against a seasonal baseline with
mean 23.0 and std 3.5 gets bounds `lower = 16.0`, `upper = 30.0` from
`get_season_stats`, and `check_anomaly` returns `is_anomaly = true`,
status `warmer than normal`, and `deviation = 13.0`. -/
theorem scenario_b_rio_anomaly (df : List Reading) (city season : String)
    (hm : (get_season_stats df city season).mean = some 23)
    (hs : (get_season_stats df city season).std = some 3.5) :
    (get_season_stats df city season).lower = some 16 ∧
    (get_season_stats df city season).upper = some 30 ∧
    (check_anomaly 36 (get_season_stats df city season)).is_anomaly = true ∧
    (check_anomaly 36 (get_season_stats df city season)).status = "warmer than normal" ∧
    (check_anomaly 36 (get_season_stats df city season)).deviation = some 13 := by
  simp only [get_season_stats] at hm hs ⊢
  rw [hm, hs]
  have hlow : some ((23 : ℚ) - 2 * (3.5 : ℝ) : ℝ) = some (16 : ℝ) := by norm_num
  have hup : some ((23 : ℚ) + 2 * (3.5 : ℝ) : ℝ) = some (30 : ℝ) := by norm_num
  refine ⟨hlow, hup, ?_, ?_, ?_⟩
  · simp only [check_anomaly, get_season_stats, hm, hs, ltOpt, gtOpt]
    norm_num
  · simp only [check_anomaly, get_season_stats, hm, hs, ltOpt, gtOpt]
    norm_num
  · simp only [check_anomaly, get_season_stats, hm, Option.map_some']
    norm_num

/-- Witness for C6: the concrete three-reading summer history realising the
mean-23 / std-3.5 baseline. -/
theorem scenario_b_rio_anomaly_witness :
    (get_season_stats dfRio3 "Rio de Janeiro" "summer").mean = some 23 ∧
    (get_season_stats dfRio3 "Rio de Janeiro" "summer").std = some 3.5 ∧
    ((get_season_stats dfRio3 "Rio de Janeiro" "summer").lower = some 16 ∧
     (get_season_stats dfRio3 "Rio de Janeiro" "summer").upper = some 30 ∧
     (check_anomaly 36 (get_season_stats dfRio3 "Rio de Janeiro" "summer")).is_anomaly = true ∧
     (check_anomaly 36 (get_season_stats dfRio3 "Rio de Janeiro" "summer")).status =
       "warmer than normal" ∧
     (check_anomaly 36 (get_season_stats dfRio3 "Rio de Janeiro" "summer")).deviation =
       some 13) :=
  ⟨dfRio3_mean, dfRio3_std,
    scenario_b_rio_anomaly dfRio3 "Rio de Janeiro" "summer" dfRio3_mean dfRio3_std⟩

/-! ### C7: per-city failure isolation in both fetch strategies -/

/-- C7: in both the sequential and the concurrent live-reading acquisition
strategies, a failed fetch for one city yields an absent (`None`) reading for
that city, while every other city's entry is exactly its own fetch result —
one city's failure never aborts the others. -/
theorem fetch_failure_isolated (env : Env) (cities : List String) (i : Nat) (c e : String)
    (hc : cities[i]? = some c) (hfail : env c = Except.error e) :
    (fetch_all_temps_sync cities env)[i]? = some none ∧
    (fetch_all_temps_async cities env)[i]? = some none ∧
    ∀ (j : Nat) (d : String), cities[j]? = some d →
      (fetch_all_temps_sync cities env)[j]? = some (get_current_temp env d) ∧
      (fetch_all_temps_async cities env)[j]? = some (get_current_temp_async env d) := by
  refine ⟨?_, ?_, ?_⟩
  · rw [fetch_all_temps_sync, List.getElem?_map, hc, Option.map_some']
    simp [get_current_temp, hfail]
  · rw [fetch_all_temps_async, List.getElem?_map, hc, Option.map_some']
    simp [get_current_temp_async, hfail]
  · intro j d hd
    constructor
    · rw [fetch_all_temps_sync, List.getElem?_map, hd, Option.map_some']
    · rw [fetch_all_temps_async, List.getElem?_map, hd, Option.map_some']

/-- A network environment in which the request for Berlin fails (an unauthorized
credential) and every other request succeeds. -/
def envBerlinDown : Env := fun c =>
  if c = "Berlin" then Except.error "401 Unauthorized"
  else Except.ok { temp := 20, feels_like := 19, description := "clear sky" }

/-- Witness for C7: Berlin's fetch fails in the concrete environment while the
remaining cities of `CITIES_TO_CHECK` still return their own results. -/
theorem fetch_failure_isolated_witness :
    CITIES_TO_CHECK[0]? = some "Berlin" ∧
    envBerlinDown "Berlin" = Except.error "401 Unauthorized" ∧
    ((fetch_all_temps_sync CITIES_TO_CHECK envBerlinDown)[0]? = some none ∧
     (fetch_all_temps_async CITIES_TO_CHECK envBerlinDown)[0]? = some none ∧
     ∀ (j : Nat) (d : String), CITIES_TO_CHECK[j]? = some d →
       (fetch_all_temps_sync CITIES_TO_CHECK envBerlinDown)[j]? =
         some (get_current_temp envBerlinDown d) ∧
       (fetch_all_temps_async CITIES_TO_CHECK envBerlinDown)[j]? =
         some (get_current_temp_async envBerlinDown d)) :=
  ⟨rfl, rfl, fetch_failure_isolated envBerlinDown CITIES_TO_CHECK 0 "Berlin" "401 Unauthorized"
    rfl rfl⟩

/-! ### C9: internal consistency of the live verdict -/

/-- C9: for every temperature and every baseline stats record with defined lower
and upper bounds, `check_anomaly` is internally consistent: `is_anomaly` is true
iff the status string is not `within normal range`, and the reported deviation
is never negative. -/
theorem check_anomaly_consistent (t : ℚ) (stats : SeasonStats) (lb ub : ℝ)
    (hl : stats.lower = some lb) (hu : stats.upper = some ub) :
    ((check_anomaly t stats).is_anomaly = true ↔
      (check_anomaly t stats).status ≠ "within normal range") ∧
    ∀ d, (check_anomaly t stats).deviation = some d → 0 ≤ d := by
  constructor
  · simp only [check_anomaly, hl, hu, ltOpt, gtOpt]
    by_cases h1 : (t : ℝ) < lb <;> by_cases h2 : (t : ℝ) > ub <;> simp [h1, h2]
  · intro d hd
    simp only [check_anomaly] at hd
    rcases hm : stats.mean with _ | m
    · rw [hm] at hd
      simp at hd
    · rw [hm, Option.map_some'] at hd
      rw [← Option.some_inj.mp hd]
      exact abs_nonneg _

/-- A concrete baseline stats record with defined bounds. -/
noncomputable def statsC9 : SeasonStats :=
  { mean := some 23, std := some (2 : ℝ), lower := some (16 : ℝ), upper := some (30 : ℝ) }

/-- Witness for C9 at a concrete temperature and stats record. -/
theorem check_anomaly_consistent_witness :
    statsC9.lower = some (16 : ℝ) ∧ statsC9.upper = some (30 : ℝ) ∧
    (((check_anomaly 36 statsC9).is_anomaly = true ↔
      (check_anomaly 36 statsC9).status ≠ "within normal range") ∧
     ∀ d, (check_anomaly 36 statsC9).deviation = some d → 0 ≤ d) :=
  ⟨rfl, rfl, check_anomaly_consistent 36 statsC9 16 30 rfl rfl⟩

/-! ### C10: the anomaly bands are symmetric about the mean -/

/-- C10: every anomaly band is symmetric about its mean with half-width exactly
twice the standard deviation.  In `calc_anomalies`, wherever the rolling
statistics are defined, `upper_bound - moving_mean = moving_mean - lower_bound
= 2 moving_std`; in `get_season_stats`, `upper - mean = mean - lower = 2 std`;
in both, the mean is the midpoint of the band. -/
theorem anomaly_bands_symmetric (df : List StatRow) (r : StatRow) (o : AnomRow) (i : Nat)
    (hr : df[i]? = some r) (ho : (calc_anomalies df)[i]? = some o)
    (m : ℚ) (s : ℝ) (hm : r.moving_mean = some m) (hs : r.moving_std = some s)
    (df2 : List Reading) (city season : String) (m2 : ℚ) (s2 : ℝ)
    (hm2 : (get_season_stats df2 city season).mean = some m2)
    (hs2 : (get_season_stats df2 city season).std = some s2) :
    (∀ lb ub, o.lower_bound = some lb → o.upper_bound = some ub →
      ub - (m : ℝ) = 2 * s ∧ (m : ℝ) - lb = 2 * s ∧ (m : ℝ) = (lb + ub) / 2) ∧
    (∀ lb ub, (get_season_stats df2 city season).lower = some lb →
      (get_season_stats df2 city season).upper = some ub →
      ub - (m2 : ℝ) = 2 * s2 ∧ (m2 : ℝ) - lb = 2 * s2 ∧ (m2 : ℝ) = (lb + ub) / 2) := by
  constructor
  · rw [calc_anomalies, List.getElem?_map, hr, Option.map_some'] at ho
    have ho' := (Option.some_inj.mp ho).symm
    subst ho'
    intro lb ub hlb hub
    simp only [hm, hs] at hlb hub
    have hlb' := (Option.some_inj.mp hlb).symm
    have hub' := (Option.some_inj.mp hub).symm
    subst hlb'
    subst hub'
    refine ⟨by ring, by ring, by ring⟩
  · intro lb ub hlb hub
    simp only [get_season_stats] at hm2 hs2 hlb hub
    rw [hm2, hs2] at hlb hub
    have hlb' := (Option.some_inj.mp hlb).symm
    have hub' := (Option.some_inj.mp hub).symm
    subst hlb'
    subst hub'
    refine ⟨by ring, by ring, by ring⟩

/-- Witness for C10: a concrete one-row frame with defined rolling statistics and
the concrete Rio seasonal history. -/
theorem anomaly_bands_symmetric_witness :
    dfC3[0]? = some rowC3 ∧ (calc_anomalies dfC3)[0]? = some oC3 ∧
    rowC3.moving_mean = some 10 ∧ rowC3.moving_std = some (2 : ℝ) ∧
    (get_season_stats dfRio3 "Rio de Janeiro" "summer").mean = some 23 ∧
    (get_season_stats dfRio3 "Rio de Janeiro" "summer").std = some 3.5 ∧
    ((∀ lb ub, oC3.lower_bound = some lb → oC3.upper_bound = some ub →
      ub - ((10 : ℚ) : ℝ) = 2 * (2 : ℝ) ∧ ((10 : ℚ) : ℝ) - lb = 2 * (2 : ℝ) ∧
      ((10 : ℚ) : ℝ) = (lb + ub) / 2) ∧
     (∀ lb ub, (get_season_stats dfRio3 "Rio de Janeiro" "summer").lower = some lb →
      (get_season_stats dfRio3 "Rio de Janeiro" "summer").upper = some ub →
      ub - ((23 : ℚ) : ℝ) = 2 * (3.5 : ℝ) ∧ ((23 : ℚ) : ℝ) - lb = 2 * (3.5 : ℝ) ∧
      ((23 : ℚ) : ℝ) = (lb + ub) / 2)) :=
  ⟨rfl, rfl, rfl, rfl, dfRio3_mean, dfRio3_std,
    anomaly_bands_symmetric dfC3 rowC3 oC3 0 rfl rfl 10 2 rfl rfl
      dfRio3 "Rio de Janeiro" "summer" 23 3.5 dfRio3_mean dfRio3_std⟩
